import Mathlib

/-!
# Samsung S6SY761 touchscreen driver and q6voice header

A shallow embedding of `drivers/input/touchscreen/stm-fingertips.c`
(`s6sy761_power_on`, `s6sy761_hw_init`, `s6sy761_probe`) and of the two enums of
`sound/soc/qcom/qdsp6/q6voice.h`.

The driver functions are straight-line code around kernel calls.  Every call site
is executed at most once per run, so the kernel is modelled by a record holding,
for each call site, the value that call returns when it is made (and, for block
reads, the contents of the buffer afterwards).  Each model returns, next to the
C return value, the ordered list of kernel calls that were issued.
-/

namespace S6sy761

/-! ## Constants defined outside these files -/

/-- Values of the macros the driver uses but does not define itself (register
numbers, sizes, expected values, errno numbers, input-layer codes).  They are
parameters of the model. -/
structure Consts where
  ENODEV : Int
  ENOMEM : Int
  S6SY761_READ_ONE_EVENT : Int
  S6SY761_EVENT_SIZE : Int
  S6SY761_EVENT_INFO : Int
  S6SY761_EVENT_VENDOR_INFO : Int
  S6SY761_INFO_BOOT_COMPLETE : Int
  S6SY761_BOOT_STATUS : Int
  S6SY761_BS_APPLICATION : Int
  S6SY761_TOUCH_FUNCTION : Int
  S6SY761_MASK_TOUCH : Int
  S6SY761_DEVICE_ID : Int
  S6SY761_DEVID_SIZE : Int
  S6SY761_PANEL_INFO : Int
  S6SY761_PANEL_ID_SIZE : Int
  S6SY761_FIRMWARE_INTEGRITY : Int
  S6SY761_FW_OK : Int
  I2C_FUNC_I2C : Nat
  I2C_FUNC_SMBUS_BYTE_DATA : Nat
  I2C_FUNC_SMBUS_I2C_BLOCK : Nat
  ABS_X : Int
  ABS_Y : Int
  ABS_MT_POSITION_X : Int
  ABS_MT_POSITION_Y : Int
  ABS_MT_TOUCH_MAJOR : Int
  ABS_MT_TOUCH_MINOR : Int
  ABS_MT_PRESSURE : Int
  INPUT_MT_DIRECT : Int

/-- The values these macros have in the mainline kernel; used for concrete runs. -/
def mainline : Consts :=
  ⟨19, 12, 0x60, 8, 0x02, 0x07, 0x00, 0x55, 0x20, 0x30, 1, 0x52, 3, 0x23, 11,
   0x21, 0x80, 0x00000001, 0x00180000, 0x0c000000, 0x00, 0x01, 0x35, 0x36, 0x30,
   0x31, 0x3a, 0x0002⟩

/-! ## Kernel calls -/

/-- A kernel call issued by the driver, with the arguments that matter. -/
inductive Call where
  | regulator_bulk_enable
  | msleep (msecs : Int)
  | i2c_smbus_read_i2c_block_data (command length : Int)
  | i2c_smbus_read_byte_data (command : Int)
  | i2c_smbus_write_word_data (command value : Int)
  | i2c_check_functionality (func : Nat)
  | devm_kzalloc
  | i2c_set_clientdata
  | devm_regulator_bulk_get
  | devm_add_action_or_reset
  | devm_input_allocate_device
  | input_set_abs_params (axis min max fuzz flat : Int)
  | touchscreen_parse_properties
  | input_abs_get_max (axis : Int)
  | dev_warn
  | input_mt_init_slots (num_slots : Nat) (flags : Int)
  | input_set_drvdata
  | input_register_device
  | devm_request_threaded_irq
  | pm_runtime_enable
  deriving DecidableEq, Repr

/-- What each kernel call site returns when it is reached in a run.  Integer
results are the C return values; pointer results are addresses with 0 for NULL;
the three buffers are the contents of the local `buffer` array right after the
corresponding block read. -/
structure Kernel where
  i2c_check_functionality : Int
  devm_kzalloc : Nat
  devm_regulator_bulk_get : Int
  devm_add_action_or_reset : Int
  regulator_bulk_enable : Int
  read_one_event : Int
  event_buffer : List Nat
  read_boot_status : Int
  write_touch_function : Int
  read_device_id : Int
  devid_buffer : List Nat
  read_panel_info : Int
  panel_buffer : List Nat
  read_firmware_integrity : Int
  devm_input_allocate_device : Nat
  input_abs_get_max_x : Int
  input_abs_get_max_y : Int
  input_mt_init_slots : Int
  input_register_device : Int
  devm_request_threaded_irq : Int

/-- Element `i` of a `u8` array. -/
def u8_at (buffer : List Nat) (i : Nat) : Nat :=
  buffer.getD i 0 % 256

/-! ## s6sy761_power_on -/

/-- The expression `(b >> 2) & 0xf` stored into the `u8 event`. -/
def event_type (b : Nat) : Nat :=
  ((b >>> 2) &&& 0xf) % 256

/-- The condition of the boot-complete `if` in `s6sy761_power_on`: true when the
function bails out with `-ENODEV`. -/
def boot_check_fails (K : Consts) (buffer : List Nat) : Bool :=
  let event := event_type (u8_at buffer 0)
  (((event : Int) != K.S6SY761_EVENT_INFO &&
    (event : Int) != K.S6SY761_EVENT_VENDOR_INFO) ||
   (u8_at buffer 1 : Int) != K.S6SY761_INFO_BOOT_COMPLETE)

/-- Model of `s6sy761_power_on`: the return value and the kernel calls issued. -/
def s6sy761_power_on (K : Consts) (k : Kernel) : Int × List Call :=
  let ret := k.regulator_bulk_enable
  let tr := [Call.regulator_bulk_enable]
  if ret ≠ 0 then (ret, tr) else
  let tr := tr ++ [Call.msleep 140]
  let ret := k.read_one_event
  let buffer := k.event_buffer
  let tr := tr ++ [Call.i2c_smbus_read_i2c_block_data K.S6SY761_READ_ONE_EVENT
                    K.S6SY761_EVENT_SIZE]
  if ret < 0 then (ret, tr) else
  if boot_check_fails K buffer then (-K.ENODEV, tr) else
  let ret := k.read_boot_status
  let tr := tr ++ [Call.i2c_smbus_read_byte_data K.S6SY761_BOOT_STATUS]
  if ret < 0 then (ret, tr) else
  if ret ≠ K.S6SY761_BS_APPLICATION then (-K.ENODEV, tr) else
  let ret := k.write_touch_function
  let tr := tr ++ [Call.i2c_smbus_write_word_data K.S6SY761_TOUCH_FUNCTION
                    K.S6SY761_MASK_TOUCH]
  if ret ≠ 0 then (ret, tr) else
  (0, tr)

/-! ## s6sy761_hw_init -/

/-- The fields of `struct s6sy761_data` that `s6sy761_hw_init` writes. -/
structure s6sy761_data where
  devid : Nat
  tx_channel : Nat
  deriving DecidableEq, Repr

/-- Modelled from the spec: `get_unaligned_be16` comes from `asm/unaligned.h`,
which lies outside these two files; it is the big-endian 16-bit decode of the two
bytes at the given position, returned as a `u16`. -/
def get_unaligned_be16 (buffer : List Nat) (off : Nat) : Nat :=
  ((u8_at buffer off <<< 8) ||| u8_at buffer (off + 1)) % 65536

/-- Modelled from the spec: `max_t` is a macro of `linux/minmax.h`, which lies
outside these two files; `max_t(u8, x, y)` converts both operands to `u8` and
yields the larger one. -/
def max_t_u8 (x y : Nat) : Nat :=
  if x % 256 > y % 256 then x % 256 else y % 256

/-- Everything `s6sy761_hw_init` leaves behind: return value, driver data, the
two out-parameters and the kernel calls issued. -/
structure HwInit where
  ret : Int
  sdata : s6sy761_data
  max_x : Nat
  max_y : Nat
  calls : List Call

/-- Model of `s6sy761_hw_init`.  `sdata`, `max_x` and `max_y` are the contents of
the pointed-to objects on entry. -/
def s6sy761_hw_init (K : Consts) (k : Kernel) (sdata : s6sy761_data)
    (max_x max_y : Nat) : HwInit :=
  let (ret, tr) := s6sy761_power_on K k
  if ret ≠ 0 then ⟨ret, sdata, max_x, max_y, tr⟩ else
  let ret := k.read_device_id
  let buffer := k.devid_buffer
  let tr := tr ++ [Call.i2c_smbus_read_i2c_block_data K.S6SY761_DEVICE_ID
                    K.S6SY761_DEVID_SIZE]
  if ret < 0 then ⟨ret, sdata, max_x, max_y, tr⟩ else
  let sdata := { sdata with devid := get_unaligned_be16 buffer 1 }
  let ret := k.read_panel_info
  let buffer := k.panel_buffer
  let tr := tr ++ [Call.i2c_smbus_read_i2c_block_data K.S6SY761_PANEL_INFO
                    K.S6SY761_PANEL_ID_SIZE]
  if ret < 0 then ⟨ret, sdata, max_x, max_y, tr⟩ else
  let max_x := get_unaligned_be16 buffer 0
  let max_y := get_unaligned_be16 buffer 2
  let sdata := { sdata with tx_channel := max_t_u8 (u8_at buffer 8) 1 }
  let ret := k.read_firmware_integrity
  let tr := tr ++ [Call.i2c_smbus_read_byte_data K.S6SY761_FIRMWARE_INTEGRITY]
  if ret < 0 then ⟨ret, sdata, max_x, max_y, tr⟩
  else if ret ≠ K.S6SY761_FW_OK then ⟨-K.ENODEV, sdata, max_x, max_y, tr⟩
  else ⟨0, sdata, max_x, max_y, tr⟩

/-! ## s6sy761_probe -/

/-- Conversion of an `unsigned int` argument to the `int` parameter of
`input_set_abs_params` (32-bit two's complement). -/
def uint_to_int (u : Nat) : Int :=
  ((u : Int) + 2147483648) % 4294967296 - 2147483648

/-- Model of `s6sy761_probe`: the return value and the kernel calls issued.
`max_x` and `max_y` are the indeterminate initial contents of the two locals;
the driver data starts zeroed, as `devm_kzalloc` returns it. -/
def s6sy761_probe (K : Consts) (k : Kernel) (max_x max_y : Nat) : Int × List Call :=
  let tr := [Call.i2c_check_functionality
              (K.I2C_FUNC_I2C ||| K.I2C_FUNC_SMBUS_BYTE_DATA ||| K.I2C_FUNC_SMBUS_I2C_BLOCK)]
  if k.i2c_check_functionality = 0 then (-K.ENODEV, tr) else
  let tr := tr ++ [Call.devm_kzalloc]
  if k.devm_kzalloc = 0 then (-K.ENOMEM, tr) else
  let sdata : s6sy761_data := ⟨0, 0⟩
  let tr := tr ++ [Call.i2c_set_clientdata]
  let err := k.devm_regulator_bulk_get
  let tr := tr ++ [Call.devm_regulator_bulk_get]
  if err ≠ 0 then (err, tr) else
  let err := k.devm_add_action_or_reset
  let tr := tr ++ [Call.devm_add_action_or_reset]
  if err ≠ 0 then (err, tr) else
  let hw := s6sy761_hw_init K k sdata max_x max_y
  let err := hw.ret
  let sdata := hw.sdata
  let max_x := hw.max_x
  let max_y := hw.max_y
  let tr := tr ++ hw.calls
  if err ≠ 0 then (err, tr) else
  let tr := tr ++ [Call.devm_input_allocate_device]
  if k.devm_input_allocate_device = 0 then (-K.ENOMEM, tr) else
  let tr := tr ++
    [Call.input_set_abs_params K.ABS_MT_POSITION_X 0 (uint_to_int max_x) 0 0,
     Call.input_set_abs_params K.ABS_MT_POSITION_Y 0 (uint_to_int max_y) 0 0,
     Call.input_set_abs_params K.ABS_MT_TOUCH_MAJOR 0 255 0 0,
     Call.input_set_abs_params K.ABS_MT_TOUCH_MINOR 0 255 0 0,
     Call.input_set_abs_params K.ABS_MT_TOUCH_MAJOR 0 255 0 0,
     Call.input_set_abs_params K.ABS_MT_TOUCH_MINOR 0 255 0 0,
     Call.input_set_abs_params K.ABS_MT_PRESSURE 0 255 0 0]
  let tr := tr ++ [Call.touchscreen_parse_properties]
  let tr := tr ++ [Call.input_abs_get_max K.ABS_X]
  let tr :=
    if k.input_abs_get_max_x = 0 then tr ++ [Call.dev_warn]
    else
      let tr := tr ++ [Call.input_abs_get_max K.ABS_Y]
      if k.input_abs_get_max_y = 0 then tr ++ [Call.dev_warn] else tr
  let err := k.input_mt_init_slots
  let tr := tr ++ [Call.input_mt_init_slots sdata.tx_channel K.INPUT_MT_DIRECT]
  if err ≠ 0 then (err, tr) else
  let tr := tr ++ [Call.input_set_drvdata]
  let err := k.input_register_device
  let tr := tr ++ [Call.input_register_device]
  if err ≠ 0 then (err, tr) else
  let err := k.devm_request_threaded_irq
  let tr := tr ++ [Call.devm_request_threaded_irq]
  if err ≠ 0 then (err, tr) else
  let tr := tr ++ [Call.pm_runtime_enable]
  (0, tr)

/-- The calls `s6sy761_probe` makes before `s6sy761_hw_init`. -/
def probe_head (K : Consts) : List Call :=
  [Call.i2c_check_functionality
     (K.I2C_FUNC_I2C ||| K.I2C_FUNC_SMBUS_BYTE_DATA ||| K.I2C_FUNC_SMBUS_I2C_BLOCK),
   Call.devm_kzalloc, Call.i2c_set_clientdata, Call.devm_regulator_bulk_get,
   Call.devm_add_action_or_reset]

/-- The calls `s6sy761_probe` makes from a successful input device allocation up
to, and excluding, `input_mt_init_slots`. -/
def probe_input_setup (K : Consts) (k : Kernel) (max_x max_y : Nat) : List Call :=
  [Call.devm_input_allocate_device,
   Call.input_set_abs_params K.ABS_MT_POSITION_X 0 (uint_to_int max_x) 0 0,
   Call.input_set_abs_params K.ABS_MT_POSITION_Y 0 (uint_to_int max_y) 0 0,
   Call.input_set_abs_params K.ABS_MT_TOUCH_MAJOR 0 255 0 0,
   Call.input_set_abs_params K.ABS_MT_TOUCH_MINOR 0 255 0 0,
   Call.input_set_abs_params K.ABS_MT_TOUCH_MAJOR 0 255 0 0,
   Call.input_set_abs_params K.ABS_MT_TOUCH_MINOR 0 255 0 0,
   Call.input_set_abs_params K.ABS_MT_PRESSURE 0 255 0 0,
   Call.touchscreen_parse_properties,
   Call.input_abs_get_max K.ABS_X] ++
  (if k.input_abs_get_max_x = 0 then [Call.dev_warn]
   else Call.input_abs_get_max K.ABS_Y ::
     (if k.input_abs_get_max_y = 0 then [Call.dev_warn] else []))

/-! ## The ordered steps of s6sy761_probe -/

/-- The fallible steps of `s6sy761_probe`, in source order. -/
inductive Step where
  | i2c_functionality
  | alloc_data
  | regulator_bulk_get
  | add_action
  | hw_init
  | alloc_input
  | mt_init_slots
  | register_device
  | request_irq
  deriving DecidableEq, Repr

/-- Position of a step in the source. -/
def Step.order : Step → Nat
  | .i2c_functionality => 0
  | .alloc_data => 1
  | .regulator_bulk_get => 2
  | .add_action => 3
  | .hw_init => 4
  | .alloc_input => 5
  | .mt_init_slots => 6
  | .register_device => 7
  | .request_irq => 8

/-- The step a kernel call belongs to; the regulator, sleep and I2C transfer calls
are those of `s6sy761_hw_init`.  Calls that cannot fail belong to no step. -/
def step_of_call : Call → Option Step
  | .i2c_check_functionality _ => some .i2c_functionality
  | .devm_kzalloc => some .alloc_data
  | .devm_regulator_bulk_get => some .regulator_bulk_get
  | .devm_add_action_or_reset => some .add_action
  | .regulator_bulk_enable => some .hw_init
  | .msleep _ => some .hw_init
  | .i2c_smbus_read_i2c_block_data _ _ => some .hw_init
  | .i2c_smbus_read_byte_data _ => some .hw_init
  | .i2c_smbus_write_word_data _ _ => some .hw_init
  | .devm_input_allocate_device => some .alloc_input
  | .input_mt_init_slots _ _ => some .mt_init_slots
  | .input_register_device => some .register_device
  | .devm_request_threaded_irq => some .request_irq
  | _ => none

/-- The error code a step yields when it is reached, 0 when it succeeds:
`-ENODEV` for missing I2C functionality, `-ENOMEM` for a failed allocation, the
callee's return value otherwise. -/
def step_error (K : Consts) (k : Kernel) (max_x max_y : Nat) : Step → Int
  | .i2c_functionality => if k.i2c_check_functionality = 0 then -K.ENODEV else 0
  | .alloc_data => if k.devm_kzalloc = 0 then -K.ENOMEM else 0
  | .regulator_bulk_get => k.devm_regulator_bulk_get
  | .add_action => k.devm_add_action_or_reset
  | .hw_init => (s6sy761_hw_init K k ⟨0, 0⟩ max_x max_y).ret
  | .alloc_input => if k.devm_input_allocate_device = 0 then -K.ENOMEM else 0
  | .mt_init_slots => k.input_mt_init_slots
  | .register_device => k.input_register_device
  | .request_irq => k.devm_request_threaded_irq

/-- Whether a step succeeds when it is reached. -/
def step_ok (K : Consts) (k : Kernel) (max_x max_y : Nat) : Step → Bool
  | .i2c_functionality => k.i2c_check_functionality != 0
  | .alloc_data => k.devm_kzalloc != 0
  | .regulator_bulk_get => k.devm_regulator_bulk_get == 0
  | .add_action => k.devm_add_action_or_reset == 0
  | .hw_init => (s6sy761_hw_init K k ⟨0, 0⟩ max_x max_y).ret == 0
  | .alloc_input => k.devm_input_allocate_device != 0
  | .mt_init_slots => k.input_mt_init_slots == 0
  | .register_device => k.input_register_device == 0
  | .request_irq => k.devm_request_threaded_irq == 0

/-- No call of the list belongs to a step later than position `n`. -/
def calls_upto (n : Nat) (tr : List Call) : Prop :=
  ∀ c ∈ tr, ∀ s, step_of_call c = some s → s.order ≤ n

end S6sy761

/-! ## q6voice.h enums -/

namespace Q6voice

/-- C rule for the values of an enum declaration: an enumerator with an explicit
value takes it, any other takes the previous value plus one, the first one 0. -/
def enum_values : Int → List (String × Option Int) → List (String × Int)
  | _, [] => []
  | _, (name, some v) :: rest => (name, v) :: enum_values (v + 1) rest
  | next, (name, none) :: rest => (name, next) :: enum_values (next + 1) rest

/-- Declaration of `enum q6voice_path_type`. -/
def q6voice_path_type_decl : List (String × Option Int) :=
  [("Q6VOICE_PATH_VOICE", some 0),
   ("Q6VOICE_PATH_VOIP", none),
   ("Q6VOICE_PATH_VOLTE", none),
   ("Q6VOICE_PATH_VOICE2", none),
   ("Q6VOICE_PATH_QCHAT", none),
   ("Q6VOICE_PATH_VOWLAN", none),
   ("Q6VOICE_PATH_VOICEMMODE1", none),
   ("Q6VOICE_PATH_VOICEMMODE2", none),
   ("Q6VOICE_PATH_COUNT", none)]

/-- Declaration of `enum q6voice_port_type`. -/
def q6voice_port_type_decl : List (String × Option Int) :=
  [("Q6VOICE_PORT_RX", some 0),
   ("Q6VOICE_PORT_TX", none)]

/-- Enumerators of `enum q6voice_path_type` with their values. -/
def q6voice_path_type : List (String × Int) :=
  enum_values 0 q6voice_path_type_decl

/-- Enumerators of `enum q6voice_port_type` with their values. -/
def q6voice_port_type : List (String × Int) :=
  enum_values 0 q6voice_port_type_decl

/-- Value of a named enumerator, if declared. -/
def enum_value (e : List (String × Int)) (name : String) : Option Int :=
  (e.find? (fun p => p.1 == name)).map Prod.snd

end Q6voice

/-! ## Concrete runs -/

namespace S6sy761

/-- A run in which every call succeeds: boot-complete INFO event, application
boot status, a 1440 x 2560 panel reporting 0 tx channels, firmware intact. -/
def kernel_ok : Kernel :=
  ⟨1, 1, 0, 0, 0, 8, [0x08, 0, 0, 0, 0, 0, 0, 0], 0x20, 0, 3, [0, 0x12, 0x34],
   11, [0x05, 0xa0, 0x0a, 0x00, 0, 0, 0, 0, 0, 0, 0], 0x80, 1, 1440, 2560, 0, 0, 0⟩

/-- As `kernel_ok`, but the controller answers the boot status read with the
boot-loader value 0x10. -/
def kernel_bootloader : Kernel :=
  { kernel_ok with read_boot_status := 0x10 }

/-- As `kernel_ok`, but `input_register_device` fails with -22. -/
def kernel_register_fails : Kernel :=
  { kernel_ok with input_register_device := -22 }

end S6sy761

/-! ## Theorems -/

namespace S6sy761

set_option maxRecDepth 100000 in
theorem event_type_eq_mask (b : Nat) (hb : b < 256) :
    event_type b = (b &&& 0x3c) >>> 2 := by
  revert b
  decide

theorem and_eq_of_xor_and_eq_zero (b c m : Nat) (h : (b ^^^ c) &&& m = 0) :
    b &&& m = c &&& m := by
  rw [Nat.and_xor_distrib_right] at h
  exact Nat.xor_eq_zero.mp h

theorem event_type_eq_div (b : Nat) :
    event_type b = (b / 4) % 16 := by
  unfold event_type
  have h1 : b >>> 2 = b / 4 := by simp [Nat.shiftRight_eq_div_pow]
  have h2 : (b / 4) &&& 0xf = (b / 4) % 16 := Nat.and_pow_two_sub_one_eq_mod (b / 4) 4
  rw [h1, h2]
  omega

/-- C6: for bytes `b`, `b2`, the event type `(b >> 2) & 0xf` equals `(b / 4) mod 16`
and lies in 0..15; when `b` and `b2` differ only in bits 0, 1, 6 or 7 they have the
same event type, the boot-complete check has the same outcome on buffers that
differ only in that first byte, and `s6sy761_power_on` behaves identically. -/
theorem event_type_depends_on_bits_2_to_5 (K : Consts) (k : Kernel) (rest : List Nat)
    (b b2 : Nat) (hb : b < 256) (hb2 : b2 < 256) :
    event_type b = (b / 4) % 16 ∧ event_type b ≤ 15 ∧
    ((b ^^^ b2) &&& 0x3c = 0 →
      event_type b = event_type b2 ∧
      boot_check_fails K (b :: rest) = boot_check_fails K (b2 :: rest) ∧
      s6sy761_power_on K { k with event_buffer := b :: rest } =
        s6sy761_power_on K { k with event_buffer := b2 :: rest }) := by
  have hdiv := event_type_eq_div b
  refine ⟨hdiv, ?_, ?_⟩
  · rw [hdiv]; omega
  · intro hx
    have hm := and_eq_of_xor_and_eq_zero b b2 0x3c hx
    have he : event_type b = event_type b2 := by
      rw [event_type_eq_mask b hb, event_type_eq_mask b2 hb2, hm]
    have hu : u8_at (b :: rest) 0 = b := by simp [u8_at]; omega
    have hu2 : u8_at (b2 :: rest) 0 = b2 := by simp [u8_at]; omega
    have h1 : u8_at (b :: rest) 1 = u8_at (b2 :: rest) 1 := by simp [u8_at]
    have hc : boot_check_fails K (b :: rest) = boot_check_fails K (b2 :: rest) := by
      simp only [boot_check_fails, hu, hu2, h1, he]
    refine ⟨he, hc, ?_⟩
    simp only [s6sy761_power_on, hc]

theorem event_type_depends_on_bits_2_to_5_witness :
    event_type 0x08 = (0x08 / 4) % 16 ∧ event_type 0x08 ≤ 15 ∧
    event_type 0x08 = event_type 0xcb ∧
    boot_check_fails mainline [0x08, 0] = boot_check_fails mainline [0xcb, 0] ∧
    s6sy761_power_on mainline { kernel_ok with event_buffer := [0x08, 0] } =
      s6sy761_power_on mainline { kernel_ok with event_buffer := [0xcb, 0] } :=
  have h := event_type_depends_on_bits_2_to_5 mainline kernel_ok [0] 0x08 0xcb
    (by decide) (by decide)
  ⟨h.1, h.2.1, (h.2.2 (by decide)).1, (h.2.2 (by decide)).2.1, (h.2.2 (by decide)).2.2⟩

/-- The boot-complete check passes exactly when the event type is INFO or
VENDOR_INFO and the second byte is the boot-complete code. -/
theorem boot_check_fails_eq_false (K : Consts) (buffer : List Nat) :
    boot_check_fails K buffer = false ↔
      (((event_type (u8_at buffer 0) : Nat) : Int) = K.S6SY761_EVENT_INFO ∨
        ((event_type (u8_at buffer 0) : Nat) : Int) = K.S6SY761_EVENT_VENDOR_INFO) ∧
      ((u8_at buffer 1 : Nat) : Int) = K.S6SY761_INFO_BOOT_COMPLETE := by
  simp only [boot_check_fails, Bool.or_eq_false_iff, Bool.and_eq_false_iff, bne_eq_false_iff_eq]

/-- C1: `s6sy761_power_on` returns 0 exactly when the regulator enable returns 0,
the event block read is non-negative, the event is a boot-complete INFO or
VENDOR_INFO event, the boot status read returns `S6SY761_BS_APPLICATION` and the
touch-function write returns 0; otherwise it returns the failing call's own value
(regulator enable, negative read, non-zero write) or `-ENODEV` (failed
boot-complete or boot-status check), which is non-zero. -/
theorem power_on_returns_zero_iff (K : Consts) (k : Kernel)
    (hENODEV : K.ENODEV ≠ 0) (hBS : 0 ≤ K.S6SY761_BS_APPLICATION) :
    ((s6sy761_power_on K k).1 = 0 ↔
      k.regulator_bulk_enable = 0 ∧
      0 ≤ k.read_one_event ∧
      ((((event_type (u8_at k.event_buffer 0) : Nat) : Int) = K.S6SY761_EVENT_INFO ∨
        ((event_type (u8_at k.event_buffer 0) : Nat) : Int) = K.S6SY761_EVENT_VENDOR_INFO) ∧
       ((u8_at k.event_buffer 1 : Nat) : Int) = K.S6SY761_INFO_BOOT_COMPLETE) ∧
      k.read_boot_status = K.S6SY761_BS_APPLICATION ∧
      k.write_touch_function = 0) ∧
    (k.regulator_bulk_enable ≠ 0 →
      (s6sy761_power_on K k).1 = k.regulator_bulk_enable) ∧
    (k.regulator_bulk_enable = 0 → k.read_one_event < 0 →
      (s6sy761_power_on K k).1 = k.read_one_event) ∧
    (k.regulator_bulk_enable = 0 → 0 ≤ k.read_one_event →
      boot_check_fails K k.event_buffer = true →
      (s6sy761_power_on K k).1 = -K.ENODEV ∧ -K.ENODEV ≠ 0) ∧
    (k.regulator_bulk_enable = 0 → 0 ≤ k.read_one_event →
      boot_check_fails K k.event_buffer = false → k.read_boot_status < 0 →
      (s6sy761_power_on K k).1 = k.read_boot_status) ∧
    (k.regulator_bulk_enable = 0 → 0 ≤ k.read_one_event →
      boot_check_fails K k.event_buffer = false → 0 ≤ k.read_boot_status →
      k.read_boot_status ≠ K.S6SY761_BS_APPLICATION →
      (s6sy761_power_on K k).1 = -K.ENODEV ∧ -K.ENODEV ≠ 0) ∧
    (k.regulator_bulk_enable = 0 → 0 ≤ k.read_one_event →
      boot_check_fails K k.event_buffer = false →
      k.read_boot_status = K.S6SY761_BS_APPLICATION →
      k.write_touch_function ≠ 0 →
      (s6sy761_power_on K k).1 = k.write_touch_function) := by
  have hneg : -K.ENODEV ≠ 0 := by omega
  have hBS' : ¬ K.S6SY761_BS_APPLICATION < 0 := by omega
  rw [← boot_check_fails_eq_false]
  refine ⟨?_, ?_, ?_, ?_, ?_, ?_, ?_⟩
  · unfold s6sy761_power_on
    by_cases h1 : k.regulator_bulk_enable = 0
    · by_cases h2 : k.read_one_event < 0
      · simp [h1, h2]; omega
      · cases h3 : boot_check_fails K k.event_buffer
        · by_cases h4 : k.read_boot_status < 0
          · simp [h1, h2, h3, h4]; omega
          · by_cases h5 : k.read_boot_status = K.S6SY761_BS_APPLICATION
            · by_cases h6 : k.write_touch_function = 0
              · simp [h1, h2, h3, h5, h6, hBS']; omega
              · simp [h1, h2, h3, h5, h6, hBS']
            · simp [h1, h2, h3, h4, h5, hENODEV]
        · simp [h1, h2, h3, hENODEV]
    · simp [h1]
  · intro h1
    simp [s6sy761_power_on, h1]
  · intro h1 h2
    simp [s6sy761_power_on, h1, h2]
  · intro h1 h2 h3
    have h2' : ¬ k.read_one_event < 0 := by omega
    simp [s6sy761_power_on, h1, h2', h3, hENODEV]
  · intro h1 h2 h3 h4
    have h2' : ¬ k.read_one_event < 0 := by omega
    simp [s6sy761_power_on, h1, h2', h3, h4]
  · intro h1 h2 h3 h4 h5
    have h2' : ¬ k.read_one_event < 0 := by omega
    have h4' : ¬ k.read_boot_status < 0 := by omega
    simp [s6sy761_power_on, h1, h2', h3, h4', h5, hENODEV]
  · intro h1 h2 h3 h4 h5
    have h2' : ¬ k.read_one_event < 0 := by omega
    have h4' : ¬ k.read_boot_status < 0 := by omega
    simp [s6sy761_power_on, h1, h2', h3, h4, h5, hBS']

theorem power_on_returns_zero_iff_witness :
    (s6sy761_power_on mainline kernel_ok).1 = 0 ∧
    (s6sy761_power_on mainline kernel_bootloader).1 = -19 :=
  ⟨(power_on_returns_zero_iff mainline kernel_ok (by decide) (by decide)).1.2
      (by decide),
   ((power_on_returns_zero_iff mainline kernel_bootloader (by decide) (by decide)).2.2.2.2.2.1
      (by decide) (by decide) (by decide) (by decide) (by decide)).1⟩

/-- C2: in a run of `s6sy761_power_on` the write of `S6SY761_MASK_TOUCH` to
`S6SY761_TOUCH_FUNCTION` is issued at most once; when it is issued, the event
read was non-negative with a boot-complete INFO or VENDOR_INFO event, the boot
status read returned `S6SY761_BS_APPLICATION`, and the write is the last call,
after both reads; when the boot status read is made and returns a non-negative
value other than `S6SY761_BS_APPLICATION`, the result is `-ENODEV` and no word is
written to `S6SY761_TOUCH_FUNCTION`. -/
theorem power_on_touch_write_once_after_boot (K : Consts) (k : Kernel) :
    (s6sy761_power_on K k).2.count
      (Call.i2c_smbus_write_word_data K.S6SY761_TOUCH_FUNCTION K.S6SY761_MASK_TOUCH) ≤ 1 ∧
    (Call.i2c_smbus_write_word_data K.S6SY761_TOUCH_FUNCTION K.S6SY761_MASK_TOUCH ∈
        (s6sy761_power_on K k).2 →
      0 ≤ k.read_one_event ∧
      ((((event_type (u8_at k.event_buffer 0) : Nat) : Int) = K.S6SY761_EVENT_INFO ∨
        ((event_type (u8_at k.event_buffer 0) : Nat) : Int) = K.S6SY761_EVENT_VENDOR_INFO) ∧
       ((u8_at k.event_buffer 1 : Nat) : Int) = K.S6SY761_INFO_BOOT_COMPLETE) ∧
      k.read_boot_status = K.S6SY761_BS_APPLICATION ∧
      (s6sy761_power_on K k).2 =
        [Call.regulator_bulk_enable, Call.msleep 140,
         Call.i2c_smbus_read_i2c_block_data K.S6SY761_READ_ONE_EVENT K.S6SY761_EVENT_SIZE,
         Call.i2c_smbus_read_byte_data K.S6SY761_BOOT_STATUS,
         Call.i2c_smbus_write_word_data K.S6SY761_TOUCH_FUNCTION K.S6SY761_MASK_TOUCH]) ∧
    (Call.i2c_smbus_read_byte_data K.S6SY761_BOOT_STATUS ∈ (s6sy761_power_on K k).2 →
      0 ≤ k.read_boot_status → k.read_boot_status ≠ K.S6SY761_BS_APPLICATION →
      (s6sy761_power_on K k).1 = -K.ENODEV ∧
      ∀ value, Call.i2c_smbus_write_word_data K.S6SY761_TOUCH_FUNCTION value ∉
        (s6sy761_power_on K k).2) := by
  rw [← boot_check_fails_eq_false]
  unfold s6sy761_power_on
  by_cases h1 : k.regulator_bulk_enable = 0
  · by_cases h2 : k.read_one_event < 0
    · simp [h1, h2]
    · cases h3 : boot_check_fails K k.event_buffer
      · by_cases h4 : k.read_boot_status < 0
        · simp [h1, h2, h3, h4]
        · by_cases h5 : k.read_boot_status = K.S6SY761_BS_APPLICATION
          · have h5' : ¬ K.S6SY761_BS_APPLICATION < 0 := by omega
            by_cases h6 : k.write_touch_function = 0
            · simp [h1, h2, h3, h5, h5', h6]
              omega
            · simp [h1, h2, h3, h5, h5', h6]
              omega
          · simp [h1, h2, h3, h4, h5]
      · simp [h1, h2, h3]
  · simp [h1]

theorem power_on_touch_write_once_after_boot_witness :
    (s6sy761_power_on mainline kernel_ok).2 =
      [Call.regulator_bulk_enable, Call.msleep 140,
       Call.i2c_smbus_read_i2c_block_data 0x60 8, Call.i2c_smbus_read_byte_data 0x55,
       Call.i2c_smbus_write_word_data 0x30 1] ∧
    (s6sy761_power_on mainline kernel_bootloader).1 = -19 ∧
    ∀ value, Call.i2c_smbus_write_word_data 0x30 value ∉
      (s6sy761_power_on mainline kernel_bootloader).2 :=
  ⟨((power_on_touch_write_once_after_boot mainline kernel_ok).2.1 (by decide)).2.2.2,
   (power_on_touch_write_once_after_boot mainline kernel_bootloader).2.2
     (by decide) (by decide) (by decide)⟩

/-- C4: `s6sy761_hw_init` returns 0 exactly when `s6sy761_power_on` returns 0, the
device-id and panel-info block reads are non-negative and the firmware integrity
read returns `S6SY761_FW_OK`; a failing power-on is returned unchanged with no
call made after it, a negative read is returned unchanged, and a non-negative
firmware integrity value other than `S6SY761_FW_OK` gives `-ENODEV`. -/
theorem hw_init_returns_zero_iff (K : Consts) (k : Kernel) (sdata : s6sy761_data)
    (max_x max_y : Nat) (hENODEV : K.ENODEV ≠ 0) (hFW : 0 ≤ K.S6SY761_FW_OK) :
    ((s6sy761_hw_init K k sdata max_x max_y).ret = 0 ↔
      (s6sy761_power_on K k).1 = 0 ∧ 0 ≤ k.read_device_id ∧ 0 ≤ k.read_panel_info ∧
      k.read_firmware_integrity = K.S6SY761_FW_OK) ∧
    ((s6sy761_power_on K k).1 ≠ 0 →
      (s6sy761_hw_init K k sdata max_x max_y).ret = (s6sy761_power_on K k).1 ∧
      (s6sy761_hw_init K k sdata max_x max_y).calls = (s6sy761_power_on K k).2) ∧
    ((s6sy761_power_on K k).1 = 0 → k.read_device_id < 0 →
      (s6sy761_hw_init K k sdata max_x max_y).ret = k.read_device_id) ∧
    ((s6sy761_power_on K k).1 = 0 → 0 ≤ k.read_device_id → k.read_panel_info < 0 →
      (s6sy761_hw_init K k sdata max_x max_y).ret = k.read_panel_info) ∧
    ((s6sy761_power_on K k).1 = 0 → 0 ≤ k.read_device_id → 0 ≤ k.read_panel_info →
      k.read_firmware_integrity < 0 →
      (s6sy761_hw_init K k sdata max_x max_y).ret = k.read_firmware_integrity) ∧
    ((s6sy761_power_on K k).1 = 0 → 0 ≤ k.read_device_id → 0 ≤ k.read_panel_info →
      0 ≤ k.read_firmware_integrity → k.read_firmware_integrity ≠ K.S6SY761_FW_OK →
      (s6sy761_hw_init K k sdata max_x max_y).ret = -K.ENODEV ∧ -K.ENODEV ≠ 0) := by
  have hneg : -K.ENODEV ≠ 0 := by omega
  have hFW' : ¬ K.S6SY761_FW_OK < 0 := by omega
  unfold s6sy761_hw_init
  by_cases h1 : (s6sy761_power_on K k).1 = 0
  · by_cases h2 : k.read_device_id < 0
    · simp [h1, h2]; omega
    · by_cases h3 : k.read_panel_info < 0
      · simp [h1, h2, h3]; omega
      · by_cases h4 : k.read_firmware_integrity < 0
        · simp [h1, h2, h3, h4]; omega
        · by_cases h5 : k.read_firmware_integrity = K.S6SY761_FW_OK
          · simp [h1, h2, h3, h5, hFW']; omega
          · simp [h1, h2, h3, h4, h5, hENODEV]
  · simp [h1]

theorem hw_init_returns_zero_iff_witness :
    (s6sy761_hw_init mainline kernel_ok ⟨0, 0⟩ 0 0).ret = 0 ∧
    (s6sy761_hw_init mainline kernel_bootloader ⟨0, 0⟩ 0 0).ret = -19 ∧
    (s6sy761_hw_init mainline kernel_bootloader ⟨0, 0⟩ 0 0).calls =
      (s6sy761_power_on mainline kernel_bootloader).2 :=
  ⟨(hw_init_returns_zero_iff mainline kernel_ok ⟨0, 0⟩ 0 0 (by decide) (by decide)).1.2
      (by decide),
   (hw_init_returns_zero_iff mainline kernel_bootloader ⟨0, 0⟩ 0 0 (by decide)
      (by decide)).2.1 (by decide)⟩

theorem max_t_u8_one (x : Nat) :
    max_t_u8 x 1 = max (x % 256) 1 ∧ 1 ≤ max_t_u8 x 1 ∧ max_t_u8 x 1 ≤ 255 := by
  unfold max_t_u8
  split <;> omega

theorem hw_init_tx_channel (K : Consts) (k : Kernel) (sdata : s6sy761_data)
    (max_x max_y : Nat) (h1 : (s6sy761_power_on K k).1 = 0) (h2 : 0 ≤ k.read_device_id)
    (h3 : 0 ≤ k.read_panel_info) :
    (s6sy761_hw_init K k sdata max_x max_y).sdata.tx_channel =
      max_t_u8 (u8_at k.panel_buffer 8) 1 := by
  have h2' : ¬ k.read_device_id < 0 := by omega
  have h3' : ¬ k.read_panel_info < 0 := by omega
  unfold s6sy761_hw_init
  simp only [h1, h2', h3', ne_eq, not_true_eq_false, if_false]
  split
  · rfl
  · split <;> rfl

theorem hw_init_ret_zero (K : Consts) (k : Kernel) (sdata : s6sy761_data)
    (max_x max_y : Nat) (h : (s6sy761_hw_init K k sdata max_x max_y).ret = 0) :
    (s6sy761_power_on K k).1 = 0 ∧ 0 ≤ k.read_device_id ∧ 0 ≤ k.read_panel_info := by
  unfold s6sy761_hw_init at h
  by_cases h1 : (s6sy761_power_on K k).1 = 0
  · by_cases h2 : k.read_device_id < 0
    · simp [h1, h2] at h; omega
    · by_cases h3 : k.read_panel_info < 0
      · simp [h1, h2, h3] at h; omega
      · omega
  · simp [h1] at h

theorem power_on_calls_step (K : Consts) (k : Kernel) (c : Call)
    (h : c ∈ (s6sy761_power_on K k).2) : step_of_call c = some Step.hw_init := by
  simp only [s6sy761_power_on] at h
  split_ifs at h
  all_goals
    simp only [List.mem_append, List.mem_cons, List.mem_singleton, List.not_mem_nil,
      or_false, List.cons_append, List.nil_append] at h
    rcases h with rfl | rfl | rfl | rfl | rfl <;> rfl

theorem hw_init_calls_step (K : Consts) (k : Kernel) (sdata : s6sy761_data)
    (max_x max_y : Nat) (c : Call)
    (h : c ∈ (s6sy761_hw_init K k sdata max_x max_y).calls) :
    step_of_call c = some Step.hw_init := by
  have hp := power_on_calls_step K k c
  simp only [s6sy761_hw_init] at h
  split_ifs at h
  all_goals
    simp only [List.mem_append, List.mem_cons, List.mem_singleton, List.not_mem_nil,
      or_false, or_assoc] at h
    first
      | exact hp h
      | (rcases h with h | rfl | rfl | rfl <;> first | exact hp h | rfl)

/-! ### The ten outcomes of s6sy761_probe -/

theorem probe_no_functionality (K : Consts) (k : Kernel) (max_x max_y : Nat)
    (h1 : k.i2c_check_functionality = 0) :
    s6sy761_probe K k max_x max_y = (-K.ENODEV, (probe_head K).take 1) := by
  simp [s6sy761_probe, probe_head, h1]

theorem probe_no_data (K : Consts) (k : Kernel) (max_x max_y : Nat)
    (h1 : k.i2c_check_functionality ≠ 0) (h2 : k.devm_kzalloc = 0) :
    s6sy761_probe K k max_x max_y = (-K.ENOMEM, (probe_head K).take 2) := by
  simp [s6sy761_probe, probe_head, h1, h2]

theorem probe_no_regulators (K : Consts) (k : Kernel) (max_x max_y : Nat)
    (h1 : k.i2c_check_functionality ≠ 0) (h2 : k.devm_kzalloc ≠ 0)
    (h3 : k.devm_regulator_bulk_get ≠ 0) :
    s6sy761_probe K k max_x max_y = (k.devm_regulator_bulk_get, (probe_head K).take 4) := by
  simp [s6sy761_probe, probe_head, h1, h2, h3]

theorem probe_no_action (K : Consts) (k : Kernel) (max_x max_y : Nat)
    (h1 : k.i2c_check_functionality ≠ 0) (h2 : k.devm_kzalloc ≠ 0)
    (h3 : k.devm_regulator_bulk_get = 0) (h4 : k.devm_add_action_or_reset ≠ 0) :
    s6sy761_probe K k max_x max_y = (k.devm_add_action_or_reset, probe_head K) := by
  simp [s6sy761_probe, probe_head, h1, h2, h3, h4]

theorem probe_no_hw (K : Consts) (k : Kernel) (max_x max_y : Nat)
    (h1 : k.i2c_check_functionality ≠ 0) (h2 : k.devm_kzalloc ≠ 0)
    (h3 : k.devm_regulator_bulk_get = 0) (h4 : k.devm_add_action_or_reset = 0)
    (h5 : (s6sy761_hw_init K k ⟨0, 0⟩ max_x max_y).ret ≠ 0) :
    s6sy761_probe K k max_x max_y =
      ((s6sy761_hw_init K k ⟨0, 0⟩ max_x max_y).ret,
       probe_head K ++ (s6sy761_hw_init K k ⟨0, 0⟩ max_x max_y).calls) := by
  simp [s6sy761_probe, probe_head, h1, h2, h3, h4, h5]

theorem probe_no_input (K : Consts) (k : Kernel) (max_x max_y : Nat)
    (h1 : k.i2c_check_functionality ≠ 0) (h2 : k.devm_kzalloc ≠ 0)
    (h3 : k.devm_regulator_bulk_get = 0) (h4 : k.devm_add_action_or_reset = 0)
    (h5 : (s6sy761_hw_init K k ⟨0, 0⟩ max_x max_y).ret = 0)
    (h6 : k.devm_input_allocate_device = 0) :
    s6sy761_probe K k max_x max_y =
      (-K.ENOMEM,
       probe_head K ++ (s6sy761_hw_init K k ⟨0, 0⟩ max_x max_y).calls ++
         [Call.devm_input_allocate_device]) := by
  simp [s6sy761_probe, probe_head, h1, h2, h3, h4, h5, h6]

theorem probe_late (K : Consts) (k : Kernel) (max_x max_y : Nat)
    (h1 : k.i2c_check_functionality ≠ 0) (h2 : k.devm_kzalloc ≠ 0)
    (h3 : k.devm_regulator_bulk_get = 0) (h4 : k.devm_add_action_or_reset = 0)
    (h5 : (s6sy761_hw_init K k ⟨0, 0⟩ max_x max_y).ret = 0)
    (h6 : k.devm_input_allocate_device ≠ 0) :
    s6sy761_probe K k max_x max_y =
      (if k.input_mt_init_slots ≠ 0 then k.input_mt_init_slots
       else if k.input_register_device ≠ 0 then k.input_register_device
       else if k.devm_request_threaded_irq ≠ 0 then k.devm_request_threaded_irq
       else 0,
       probe_head K ++ (s6sy761_hw_init K k ⟨0, 0⟩ max_x max_y).calls ++
         probe_input_setup K k (s6sy761_hw_init K k ⟨0, 0⟩ max_x max_y).max_x
           (s6sy761_hw_init K k ⟨0, 0⟩ max_x max_y).max_y ++
         Call.input_mt_init_slots
             (s6sy761_hw_init K k ⟨0, 0⟩ max_x max_y).sdata.tx_channel K.INPUT_MT_DIRECT ::
         (if k.input_mt_init_slots ≠ 0 then []
          else Call.input_set_drvdata :: Call.input_register_device ::
            (if k.input_register_device ≠ 0 then []
             else Call.devm_request_threaded_irq ::
               (if k.devm_request_threaded_irq ≠ 0 then []
                else [Call.pm_runtime_enable])))) := by
  simp only [s6sy761_probe, probe_head, probe_input_setup, h1, h2, h3, h4, h5, h6,
    ne_eq, not_true_eq_false, if_false]
  by_cases hx : k.input_abs_get_max_x = 0 <;> by_cases hy : k.input_abs_get_max_y = 0 <;>
    by_cases h7 : k.input_mt_init_slots = 0 <;>
    by_cases h8 : k.input_register_device = 0 <;>
    by_cases h9 : k.devm_request_threaded_irq = 0 <;>
    simp [hx, hy, h7, h8, h9]

theorem probe_mt_init_slots_mem (K : Consts) (k : Kernel) (max_x max_y : Nat)
    (n : Nat) (flags : Int)
    (h : Call.input_mt_init_slots n flags ∈ (s6sy761_probe K k max_x max_y).2) :
    (s6sy761_hw_init K k ⟨0, 0⟩ max_x max_y).ret = 0 ∧
    n = (s6sy761_hw_init K k ⟨0, 0⟩ max_x max_y).sdata.tx_channel := by
  have hhw := hw_init_calls_step K k ⟨0, 0⟩ max_x max_y (Call.input_mt_init_slots n flags)
  simp only [step_of_call, Option.some.injEq, reduceCtorEq, imp_false] at hhw
  by_cases h1 : k.i2c_check_functionality = 0
  · rw [probe_no_functionality K k max_x max_y h1] at h
    simp [probe_head] at h
  by_cases h2 : k.devm_kzalloc = 0
  · rw [probe_no_data K k max_x max_y h1 h2] at h
    simp [probe_head] at h
  by_cases h3 : k.devm_regulator_bulk_get = 0
  swap
  · rw [probe_no_regulators K k max_x max_y h1 h2 h3] at h
    simp [probe_head] at h
  by_cases h4 : k.devm_add_action_or_reset = 0
  swap
  · rw [probe_no_action K k max_x max_y h1 h2 h3 h4] at h
    simp [probe_head] at h
  by_cases h5 : (s6sy761_hw_init K k ⟨0, 0⟩ max_x max_y).ret = 0
  swap
  · rw [probe_no_hw K k max_x max_y h1 h2 h3 h4 h5] at h
    simp [probe_head, hhw] at h
  by_cases h6 : k.devm_input_allocate_device = 0
  · rw [probe_no_input K k max_x max_y h1 h2 h3 h4 h5 h6] at h
    simp [probe_head, hhw] at h
  rw [probe_late K k max_x max_y h1 h2 h3 h4 h5 h6] at h
  refine ⟨h5, ?_⟩
  simp only [probe_head, probe_input_setup, List.mem_append, List.mem_cons,
    List.mem_singleton, List.not_mem_nil, reduceCtorEq, hhw, false_or, or_false,
    Call.input_mt_init_slots.injEq] at h
  rcases h with h | h | h
  · split_ifs at h <;> simp at h
  · exact h.1
  · split_ifs at h <;> simp at h

/-- C3: once `s6sy761_hw_init` is past the panel-info read, `sdata->tx_channel` is
`max(buffer[8], 1)` as a `u8`: byte 8 of the panel info when that byte is not 0,
and 1 when it is 0, hence within 1..255; and any slot count `s6sy761_probe` passes
to `input_mt_init_slots` is that value, so it is never 0. -/
theorem tx_channel_at_least_one (K : Consts) (k : Kernel) (sdata : s6sy761_data)
    (max_x max_y : Nat) :
    ((s6sy761_power_on K k).1 = 0 → 0 ≤ k.read_device_id → 0 ≤ k.read_panel_info →
      (s6sy761_hw_init K k sdata max_x max_y).sdata.tx_channel =
        max (u8_at k.panel_buffer 8) 1 ∧
      (u8_at k.panel_buffer 8 ≠ 0 →
        (s6sy761_hw_init K k sdata max_x max_y).sdata.tx_channel = u8_at k.panel_buffer 8) ∧
      (u8_at k.panel_buffer 8 = 0 →
        (s6sy761_hw_init K k sdata max_x max_y).sdata.tx_channel = 1) ∧
      1 ≤ (s6sy761_hw_init K k sdata max_x max_y).sdata.tx_channel ∧
      (s6sy761_hw_init K k sdata max_x max_y).sdata.tx_channel ≤ 255) ∧
    (∀ num_slots flags,
      Call.input_mt_init_slots num_slots flags ∈ (s6sy761_probe K k max_x max_y).2 →
      num_slots = max (u8_at k.panel_buffer 8) 1 ∧ num_slots ≠ 0) := by
  have key : ∀ sd : s6sy761_data,
      (s6sy761_power_on K k).1 = 0 → 0 ≤ k.read_device_id → 0 ≤ k.read_panel_info →
      (s6sy761_hw_init K k sd max_x max_y).sdata.tx_channel =
        max (u8_at k.panel_buffer 8) 1 := by
    intro sd h1 h2 h3
    rw [hw_init_tx_channel K k sd max_x max_y h1 h2 h3]
    have hu : u8_at k.panel_buffer 8 % 256 = u8_at k.panel_buffer 8 := by
      unfold u8_at; omega
    rw [(max_t_u8_one _).1, hu]
  refine ⟨?_, ?_⟩
  · intro h1 h2 h3
    rw [key sdata h1 h2 h3]
    refine ⟨rfl, ?_, ?_, ?_, ?_⟩
    · intro h; omega
    · intro h; omega
    · omega
    · have : u8_at k.panel_buffer 8 < 256 := by unfold u8_at; omega
      omega
  · intro n flags h
    obtain ⟨h5, hn⟩ := probe_mt_init_slots_mem K k max_x max_y n flags h
    obtain ⟨h1, h2, h3⟩ := hw_init_ret_zero K k ⟨0, 0⟩ max_x max_y h5
    rw [hn, key ⟨0, 0⟩ h1 h2 h3]
    refine ⟨rfl, ?_⟩
    omega

theorem tx_channel_at_least_one_witness :
    (s6sy761_hw_init mainline kernel_ok ⟨0, 0⟩ 0 0).sdata.tx_channel = 1 ∧
    (1 = max (u8_at kernel_ok.panel_buffer 8) 1 ∧ 1 ≠ 0) :=
  ⟨((tx_channel_at_least_one mainline kernel_ok ⟨0, 0⟩ 0 0).1
      (by decide) (by decide) (by decide)).2.2.1 (by decide),
   (tx_channel_at_least_one mainline kernel_ok ⟨0, 0⟩ 0 0).2 1 2 (by decide)⟩

theorem u8_at_lt (buffer : List Nat) (i : Nat) : u8_at buffer i < 256 := by
  unfold u8_at; omega

theorem get_unaligned_be16_eq (buffer : List Nat) (off : Nat) :
    get_unaligned_be16 buffer off = 256 * u8_at buffer off + u8_at buffer (off + 1) := by
  have h0 := u8_at_lt buffer off
  have h1 := u8_at_lt buffer (off + 1)
  have hor : 2 ^ 8 * u8_at buffer off + u8_at buffer (off + 1) =
      2 ^ 8 * u8_at buffer off ||| u8_at buffer (off + 1) :=
    Nat.mul_add_lt_is_or (by simpa using h1) _
  unfold get_unaligned_be16
  rw [Nat.shiftLeft_eq, Nat.mul_comm, ← hor]
  omega

theorem uint_to_int_small (u : Nat) (h : u ≤ 65535) : uint_to_int u = (u : Int) := by
  unfold uint_to_int; omega

theorem hw_init_outputs (K : Consts) (k : Kernel) (sdata : s6sy761_data)
    (max_x max_y : Nat) (h : (s6sy761_hw_init K k sdata max_x max_y).ret = 0) :
    (s6sy761_hw_init K k sdata max_x max_y).max_x = get_unaligned_be16 k.panel_buffer 0 ∧
    (s6sy761_hw_init K k sdata max_x max_y).max_y = get_unaligned_be16 k.panel_buffer 2 ∧
    (s6sy761_hw_init K k sdata max_x max_y).sdata.devid =
      get_unaligned_be16 k.devid_buffer 1 := by
  obtain ⟨h1, h2, h3⟩ := hw_init_ret_zero K k sdata max_x max_y h
  have h2' : ¬ k.read_device_id < 0 := by omega
  have h3' : ¬ k.read_panel_info < 0 := by omega
  unfold s6sy761_hw_init
  simp only [h1, h2', h3', ne_eq, not_true_eq_false, if_false]
  split
  · exact ⟨rfl, rfl, rfl⟩
  · split <;> exact ⟨rfl, rfl, rfl⟩

theorem probe_abs_params_mem (K : Consts) (k : Kernel) (max_x max_y : Nat)
    (axis lo hi fuzz flat : Int)
    (h : Call.input_set_abs_params axis lo hi fuzz flat ∈ (s6sy761_probe K k max_x max_y).2) :
    (s6sy761_hw_init K k ⟨0, 0⟩ max_x max_y).ret = 0 ∧
    Call.input_set_abs_params axis lo hi fuzz flat ∈
      [Call.input_set_abs_params K.ABS_MT_POSITION_X 0
         (uint_to_int (s6sy761_hw_init K k ⟨0, 0⟩ max_x max_y).max_x) 0 0,
       Call.input_set_abs_params K.ABS_MT_POSITION_Y 0
         (uint_to_int (s6sy761_hw_init K k ⟨0, 0⟩ max_x max_y).max_y) 0 0,
       Call.input_set_abs_params K.ABS_MT_TOUCH_MAJOR 0 255 0 0,
       Call.input_set_abs_params K.ABS_MT_TOUCH_MINOR 0 255 0 0,
       Call.input_set_abs_params K.ABS_MT_PRESSURE 0 255 0 0] ∧
    Call.input_set_abs_params K.ABS_MT_POSITION_X 0
      (uint_to_int (s6sy761_hw_init K k ⟨0, 0⟩ max_x max_y).max_x) 0 0 ∈
        (s6sy761_probe K k max_x max_y).2 ∧
    Call.input_set_abs_params K.ABS_MT_POSITION_Y 0
      (uint_to_int (s6sy761_hw_init K k ⟨0, 0⟩ max_x max_y).max_y) 0 0 ∈
        (s6sy761_probe K k max_x max_y).2 := by
  have hhw := hw_init_calls_step K k ⟨0, 0⟩ max_x max_y
    (Call.input_set_abs_params axis lo hi fuzz flat)
  simp only [step_of_call, reduceCtorEq, imp_false] at hhw
  by_cases h1 : k.i2c_check_functionality = 0
  · rw [probe_no_functionality K k max_x max_y h1] at h
    simp [probe_head] at h
  by_cases h2 : k.devm_kzalloc = 0
  · rw [probe_no_data K k max_x max_y h1 h2] at h
    simp [probe_head] at h
  by_cases h3 : k.devm_regulator_bulk_get = 0
  swap
  · rw [probe_no_regulators K k max_x max_y h1 h2 h3] at h
    simp [probe_head] at h
  by_cases h4 : k.devm_add_action_or_reset = 0
  swap
  · rw [probe_no_action K k max_x max_y h1 h2 h3 h4] at h
    simp [probe_head] at h
  by_cases h5 : (s6sy761_hw_init K k ⟨0, 0⟩ max_x max_y).ret = 0
  swap
  · rw [probe_no_hw K k max_x max_y h1 h2 h3 h4 h5] at h
    simp [probe_head, hhw] at h
  by_cases h6 : k.devm_input_allocate_device = 0
  · rw [probe_no_input K k max_x max_y h1 h2 h3 h4 h5 h6] at h
    simp [probe_head, hhw] at h
  rw [probe_late K k max_x max_y h1 h2 h3 h4 h5 h6] at h ⊢
  refine ⟨h5, ?_, ?_, ?_⟩
  · rw [List.mem_append, List.mem_append, List.mem_append] at h
    rcases h with ((h | h) | h) | h
    · simp [probe_head] at h
    · exact absurd h hhw
    · unfold probe_input_setup at h
      rw [List.mem_append] at h
      rcases h with h | h
      · simp only [List.mem_cons, List.mem_singleton, reduceCtorEq, false_or, or_false,
          List.not_mem_nil] at h ⊢
        tauto
      · split_ifs at h <;> simp at h
    · rw [List.mem_cons] at h
      rcases h with h | h
      · exact absurd h (by simp)
      · split_ifs at h <;> simp at h
  · simp [probe_input_setup]
  · simp [probe_input_setup]


/-! ### Fail-fast structure of s6sy761_probe -/

theorem calls_upto_nil (n : Nat) : calls_upto n [] := by
  intro c hc; simp at hc

theorem calls_upto_cons (n : Nat) (c : Call) (tr : List Call)
    (hc : ∀ s, step_of_call c = some s → s.order ≤ n) (ht : calls_upto n tr) :
    calls_upto n (c :: tr) := by
  intro d hd s hs
  rcases List.mem_cons.mp hd with rfl | hd
  · exact hc s hs
  · exact ht d hd s hs

theorem calls_upto_append (n : Nat) (tr1 tr2 : List Call)
    (h1 : calls_upto n tr1) (h2 : calls_upto n tr2) : calls_upto n (tr1 ++ tr2) := by
  intro d hd s hs
  rcases List.mem_append.mp hd with hd | hd
  · exact h1 d hd s hs
  · exact h2 d hd s hs

theorem calls_upto_mono (m n : Nat) (tr : List Call) (hmn : m ≤ n)
    (h : calls_upto m tr) : calls_upto n tr := by
  intro d hd s hs
  exact Nat.le_trans (h d hd s hs) hmn

theorem calls_upto_head (K : Consts) : calls_upto 3 (probe_head K) := by
  intro c hc s hs
  simp only [probe_head, List.mem_cons, List.mem_singleton, List.not_mem_nil, or_false] at hc
  rcases hc with rfl | rfl | rfl | rfl | rfl <;> simp [step_of_call] at hs <;> subst hs <;>
    simp [Step.order]

theorem calls_upto_head_take (K : Consts) :
    calls_upto 0 ((probe_head K).take 1) ∧ calls_upto 1 ((probe_head K).take 2) ∧
    calls_upto 2 ((probe_head K).take 4) := by
  refine ⟨?_, ?_, ?_⟩ <;> intro c hc s hs <;>
    simp only [probe_head, List.take, List.mem_cons, List.mem_singleton, List.not_mem_nil,
      or_false] at hc
  · rcases hc with rfl
    simp [step_of_call] at hs; subst hs; simp [Step.order]
  · rcases hc with rfl | rfl <;> simp [step_of_call] at hs <;> subst hs <;>
      simp [Step.order]
  · rcases hc with rfl | rfl | rfl | rfl <;> simp [step_of_call] at hs <;> subst hs <;>
      simp [Step.order]

theorem calls_upto_hw (K : Consts) (k : Kernel) (sdata : s6sy761_data) (max_x max_y : Nat) :
    calls_upto 4 (s6sy761_hw_init K k sdata max_x max_y).calls := by
  intro c hc s hs
  rw [hw_init_calls_step K k sdata max_x max_y c hc] at hs
  cases hs
  simp [Step.order]

theorem calls_upto_input_setup (K : Consts) (k : Kernel) (max_x max_y : Nat) :
    calls_upto 5 (probe_input_setup K k max_x max_y) := by
  intro c hc s hs
  unfold probe_input_setup at hc
  rw [List.mem_append] at hc
  rcases hc with hc | hc
  · simp only [List.mem_cons, List.mem_singleton, List.not_mem_nil, or_false] at hc
    rcases hc with rfl | rfl | rfl | rfl | rfl | rfl | rfl | rfl | rfl | rfl <;>
      simp [step_of_call] at hs
    subst hs
    simp [Step.order]
  · split_ifs at hc <;>
      simp only [List.mem_cons, List.mem_singleton, List.not_mem_nil, or_false] at hc
    · subst hc; simp [step_of_call] at hs
    · rcases hc with rfl | rfl <;> simp [step_of_call] at hs
    · subst hc; simp [step_of_call] at hs

theorem step_error_ne_zero (K : Consts) (k : Kernel) (max_x max_y : Nat)
    (hENODEV : K.ENODEV ≠ 0) (hENOMEM : K.ENOMEM ≠ 0) (s : Step)
    (hs : step_ok K k max_x max_y s = false) : step_error K k max_x max_y s ≠ 0 := by
  cases s <;> simp [step_ok] at hs <;> simp [step_error, hs, hENODEV, hENOMEM]

theorem probe_first_failure (K : Consts) (k : Kernel) (max_x max_y : Nat) (s : Step)
    (hprev : ∀ s2 : Step, s2.order < s.order → step_ok K k max_x max_y s2 = true)
    (hs : step_ok K k max_x max_y s = false) :
    (s6sy761_probe K k max_x max_y).1 = step_error K k max_x max_y s ∧
    calls_upto s.order (s6sy761_probe K k max_x max_y).2 ∧
    Call.pm_runtime_enable ∉ (s6sy761_probe K k max_x max_y).2 := by
  have e0 := hprev Step.i2c_functionality
  have e1 := hprev Step.alloc_data
  have e2 := hprev Step.regulator_bulk_get
  have e3 := hprev Step.add_action
  have e4 := hprev Step.hw_init
  have e5 := hprev Step.alloc_input
  have e6 := hprev Step.mt_init_slots
  have e7 := hprev Step.register_device
  have hhw := hw_init_calls_step K k ⟨0, 0⟩ max_x max_y Call.pm_runtime_enable
  simp only [step_of_call, reduceCtorEq, imp_false] at hhw
  have hT := calls_upto_head_take K
  cases s <;> simp only [Step.order, step_ok, Nat.lt_irrefl, Nat.not_lt_zero, Nat.zero_lt_succ,
    Nat.succ_lt_succ_iff, Nat.lt_succ_self, forall_true_left, false_implies, bne_iff_ne, ne_eq,
    beq_iff_eq, bne_eq_false_iff_eq, beq_eq_false_iff_ne, Nat.reduceLT] at e0 e1 e2 e3 e4 e5 e6 e7 hs
  · rw [probe_no_functionality K k max_x max_y hs]
    exact ⟨by simp [step_error, hs], hT.1, by simp [probe_head]⟩
  · rw [probe_no_data K k max_x max_y e0 hs]
    exact ⟨by simp [step_error, hs], hT.2.1, by simp [probe_head]⟩
  · rw [probe_no_regulators K k max_x max_y e0 e1 hs]
    exact ⟨by simp [step_error], hT.2.2, by simp [probe_head]⟩
  · rw [probe_no_action K k max_x max_y e0 e1 e2 hs]
    exact ⟨by simp [step_error], calls_upto_head K, by simp [probe_head]⟩
  · rw [probe_no_hw K k max_x max_y e0 e1 e2 e3 hs]
    exact ⟨by simp [step_error],
      calls_upto_append _ _ _ (calls_upto_mono _ _ _ (by decide) (calls_upto_head K))
        (calls_upto_hw K k _ max_x max_y),
      by simp [probe_head, hhw]⟩
  · rw [probe_no_input K k max_x max_y e0 e1 e2 e3 e4 hs]
    refine ⟨by simp [step_error, hs], ?_, by simp [probe_head, hhw]⟩
    refine calls_upto_append _ _ _
      (calls_upto_append _ _ _ (calls_upto_mono _ _ _ (by decide) (calls_upto_head K))
        (calls_upto_mono _ _ _ (by decide) (calls_upto_hw K k _ max_x max_y))) ?_
    exact calls_upto_cons _ _ _ (by simp [step_of_call, Step.order]) (calls_upto_nil _)
  all_goals
    have hpre : ∀ n, 5 ≤ n → calls_upto n
        (probe_head K ++ (s6sy761_hw_init K k ⟨0, 0⟩ max_x max_y).calls ++
          probe_input_setup K k (s6sy761_hw_init K k ⟨0, 0⟩ max_x max_y).max_x
            (s6sy761_hw_init K k ⟨0, 0⟩ max_x max_y).max_y) := fun n hn =>
      calls_upto_append _ _ _
        (calls_upto_append _ _ _ (calls_upto_mono _ _ _ (by omega) (calls_upto_head K))
          (calls_upto_mono _ _ _ (by omega) (calls_upto_hw K k _ max_x max_y)))
        (calls_upto_mono _ _ _ hn (calls_upto_input_setup K k _ _))
    have hsetup : Call.pm_runtime_enable ∉
        probe_input_setup K k (s6sy761_hw_init K k ⟨0, 0⟩ max_x max_y).max_x
          (s6sy761_hw_init K k ⟨0, 0⟩ max_x max_y).max_y := by
      unfold probe_input_setup
      split_ifs <;> simp
    rw [probe_late K k max_x max_y e0 e1 e2 e3 e4 e5]
  · simp only [hs, ne_eq, not_false_eq_true, if_true]
    refine ⟨by simp [step_error], ?_, by simp [probe_head, hhw, hsetup]⟩
    exact calls_upto_append _ _ _ (hpre 6 (by decide))
      (calls_upto_cons _ _ _ (by simp [step_of_call, Step.order]) (calls_upto_nil _))
  · simp only [hs, e6, ne_eq, not_true_eq_false, not_false_eq_true, if_true, if_false]
    refine ⟨by simp [step_error], ?_, by simp [probe_head, hhw, hsetup]⟩
    refine calls_upto_append _ _ _ (hpre 7 (by decide)) ?_
    refine calls_upto_cons _ _ _ (by simp [step_of_call, Step.order]) ?_
    refine calls_upto_cons _ _ _ (by simp [step_of_call]) ?_
    exact calls_upto_cons _ _ _ (by simp [step_of_call, Step.order]) (calls_upto_nil _)
  · simp only [hs, e6, e7, ne_eq, not_true_eq_false, not_false_eq_true, if_true, if_false]
    refine ⟨by simp [step_error], ?_, by simp [probe_head, hhw, hsetup]⟩
    refine calls_upto_append _ _ _ (hpre 8 (by decide)) ?_
    refine calls_upto_cons _ _ _ (by simp [step_of_call, Step.order]) ?_
    refine calls_upto_cons _ _ _ (by simp [step_of_call]) ?_
    refine calls_upto_cons _ _ _ (by simp [step_of_call, Step.order]) ?_
    exact calls_upto_cons _ _ _ (by simp [step_of_call, Step.order]) (calls_upto_nil _)

theorem probe_all_ok (K : Consts) (k : Kernel) (max_x max_y : Nat)
    (hall : ∀ s : Step, step_ok K k max_x max_y s = true) :
    (s6sy761_probe K k max_x max_y).1 = 0 ∧
    Call.pm_runtime_enable ∈ (s6sy761_probe K k max_x max_y).2 := by
  have e0 := hall Step.i2c_functionality
  have e1 := hall Step.alloc_data
  have e2 := hall Step.regulator_bulk_get
  have e3 := hall Step.add_action
  have e4 := hall Step.hw_init
  have e5 := hall Step.alloc_input
  have e6 := hall Step.mt_init_slots
  have e7 := hall Step.register_device
  have e8 := hall Step.request_irq
  simp only [step_ok, bne_iff_ne, ne_eq, beq_iff_eq] at e0 e1 e2 e3 e4 e5 e6 e7 e8
  rw [probe_late K k max_x max_y e0 e1 e2 e3 e4 e5]
  simp [e6, e7, e8]

theorem exists_first_failure (p : Step → Bool) (h : ∃ s, p s = false) :
    ∃ s, p s = false ∧ ∀ s2 : Step, s2.order < s.order → p s2 = true := by
  by_contra hcon
  have hind : ∀ n : Nat, ∀ s : Step, s.order < n → p s = true := by
    intro n
    induction n with
    | zero => intro s hs; omega
    | succ n ih =>
      intro s hs
      by_contra hp
      exact hcon ⟨s, by simpa using hp, fun s2 h2 => ih s2 (by omega)⟩
  obtain ⟨s, hs⟩ := h
  have := hind (s.order + 1) s (by omega)
  simp [hs] at this

theorem probe_failure_nonzero (K : Consts) (k : Kernel) (max_x max_y : Nat)
    (hENODEV : K.ENODEV ≠ 0) (hENOMEM : K.ENOMEM ≠ 0)
    (h : ∃ s, step_ok K k max_x max_y s = false) :
    (s6sy761_probe K k max_x max_y).1 ≠ 0 ∧
    Call.pm_runtime_enable ∉ (s6sy761_probe K k max_x max_y).2 := by
  obtain ⟨s, hs, hprev⟩ := exists_first_failure _ h
  obtain ⟨hr, _, hpm⟩ := probe_first_failure K k max_x max_y s hprev hs
  exact ⟨by rw [hr]; exact step_error_ne_zero K k max_x max_y hENODEV hENOMEM s hs, hpm⟩

theorem probe_ret_zero_iff (K : Consts) (k : Kernel) (max_x max_y : Nat)
    (hENODEV : K.ENODEV ≠ 0) (hENOMEM : K.ENOMEM ≠ 0) :
    (s6sy761_probe K k max_x max_y).1 = 0 ↔
      ∀ s : Step, step_ok K k max_x max_y s = true := by
  constructor
  · intro h0 s
    by_contra hs
    exact (probe_failure_nonzero K k max_x max_y hENODEV hENOMEM ⟨s, by simpa using hs⟩).1 h0
  · intro hall
    exact (probe_all_ok K k max_x max_y hall).1

/-- C5: `s6sy761_probe` is fail-fast over its nine ordered steps: it returns 0
exactly when every step succeeds; when a step fails after all earlier ones
succeeded, the return value is that step's non-zero error (`-ENODEV` for missing
I2C functionality, `-ENOMEM` for a failed allocation, the callee's code otherwise),
no call of a later step is made and `pm_runtime_enable` is not called; and
`pm_runtime_enable` is called exactly when probe returns 0. -/
theorem probe_fail_fast (K : Consts) (k : Kernel) (max_x max_y : Nat)
    (hENODEV : K.ENODEV ≠ 0) (hENOMEM : K.ENOMEM ≠ 0) :
    ((s6sy761_probe K k max_x max_y).1 = 0 ↔
      ∀ s : Step, step_ok K k max_x max_y s = true) ∧
    (∀ s : Step,
      (∀ s2 : Step, s2.order < s.order → step_ok K k max_x max_y s2 = true) →
      step_ok K k max_x max_y s = false →
      (s6sy761_probe K k max_x max_y).1 = step_error K k max_x max_y s ∧
      step_error K k max_x max_y s ≠ 0 ∧
      (∀ c ∈ (s6sy761_probe K k max_x max_y).2, ∀ s3 : Step,
        step_of_call c = some s3 → s3.order ≤ s.order) ∧
      Call.pm_runtime_enable ∉ (s6sy761_probe K k max_x max_y).2) ∧
    (Call.pm_runtime_enable ∈ (s6sy761_probe K k max_x max_y).2 ↔
      (s6sy761_probe K k max_x max_y).1 = 0) := by
  have hfail := probe_failure_nonzero K k max_x max_y hENODEV hENOMEM
  have hzero := probe_ret_zero_iff K k max_x max_y hENODEV hENOMEM
  refine ⟨hzero, ?_, ?_⟩
  · intro s hprev hs
    obtain ⟨hr, hc, hpm⟩ := probe_first_failure K k max_x max_y s hprev hs
    exact ⟨hr, step_error_ne_zero K k max_x max_y hENODEV hENOMEM s hs, hc, hpm⟩
  · constructor
    · intro hpm
      rw [hzero]
      intro s
      by_contra hs
      exact (hfail ⟨s, by simpa using hs⟩).2 hpm
    · intro h0
      exact (probe_all_ok K k max_x max_y (hzero.mp h0)).2

theorem probe_fail_fast_witness :
    (s6sy761_probe mainline kernel_ok 0 0).1 = 0 ∧
    Call.pm_runtime_enable ∈ (s6sy761_probe mainline kernel_ok 0 0).2 ∧
    (s6sy761_probe mainline kernel_register_fails 0 0).1 = -22 ∧
    Call.devm_request_threaded_irq ∉ (s6sy761_probe mainline kernel_register_fails 0 0).2 :=
  have hok : (s6sy761_probe mainline kernel_ok 0 0).1 = 0 :=
    (probe_fail_fast mainline kernel_ok 0 0 (by decide) (by decide)).1.2
      (fun s => by cases s <;> decide)
  have hbad := (probe_fail_fast mainline kernel_register_fails 0 0 (by decide)
    (by decide)).2.1 Step.register_device
      (fun s2 => by cases s2 <;> decide) (by decide)
  ⟨hok,
   (probe_fail_fast mainline kernel_ok 0 0 (by decide) (by decide)).2.2.2 hok,
   hbad.1,
   fun hmem => absurd (hbad.2.2.1 Call.devm_request_threaded_irq hmem Step.request_irq rfl)
     (by decide)⟩

/-- C8: after a successful `s6sy761_hw_init` the outputs are the big-endian decodes
`*max_x = 256*p[0] + p[1]`, `*max_y = 256*p[2] + p[3]` of the panel-info block `p`
and `sdata->devid = 256*d[1] + d[2]` of the device-id block `d`, each at most 65535;
whenever `s6sy761_probe` sets axis parameters it calls `input_set_abs_params` for
`ABS_MT_POSITION_X` and `ABS_MT_POSITION_Y` with minimum 0 and exactly these maxima,
which it always does when it returns 0. -/
theorem hw_init_big_endian_outputs (K : Consts) (k : Kernel) (sdata : s6sy761_data)
    (max_x max_y : Nat) :
    ((s6sy761_hw_init K k sdata max_x max_y).ret = 0 →
      (s6sy761_hw_init K k sdata max_x max_y).max_x =
        256 * u8_at k.panel_buffer 0 + u8_at k.panel_buffer 1 ∧
      (s6sy761_hw_init K k sdata max_x max_y).max_y =
        256 * u8_at k.panel_buffer 2 + u8_at k.panel_buffer 3 ∧
      (s6sy761_hw_init K k sdata max_x max_y).sdata.devid =
        256 * u8_at k.devid_buffer 1 + u8_at k.devid_buffer 2 ∧
      (s6sy761_hw_init K k sdata max_x max_y).max_x ≤ 65535 ∧
      (s6sy761_hw_init K k sdata max_x max_y).max_y ≤ 65535 ∧
      (s6sy761_hw_init K k sdata max_x max_y).sdata.devid ≤ 65535) ∧
    (∀ axis lo hi fuzz flat,
      Call.input_set_abs_params axis lo hi fuzz flat ∈ (s6sy761_probe K k max_x max_y).2 →
      Call.input_set_abs_params K.ABS_MT_POSITION_X 0
        ((256 * u8_at k.panel_buffer 0 + u8_at k.panel_buffer 1 : Nat) : Int) 0 0 ∈
          (s6sy761_probe K k max_x max_y).2 ∧
      Call.input_set_abs_params K.ABS_MT_POSITION_Y 0
        ((256 * u8_at k.panel_buffer 2 + u8_at k.panel_buffer 3 : Nat) : Int) 0 0 ∈
          (s6sy761_probe K k max_x max_y).2 ∧
      (axis = K.ABS_MT_POSITION_X →
        K.ABS_MT_POSITION_X ∉ [K.ABS_MT_POSITION_Y, K.ABS_MT_TOUCH_MAJOR,
          K.ABS_MT_TOUCH_MINOR, K.ABS_MT_PRESSURE] →
        lo = 0 ∧ hi = ((256 * u8_at k.panel_buffer 0 + u8_at k.panel_buffer 1 : Nat) : Int)) ∧
      (axis = K.ABS_MT_POSITION_Y →
        K.ABS_MT_POSITION_Y ∉ [K.ABS_MT_POSITION_X, K.ABS_MT_TOUCH_MAJOR,
          K.ABS_MT_TOUCH_MINOR, K.ABS_MT_PRESSURE] →
        lo = 0 ∧ hi = ((256 * u8_at k.panel_buffer 2 + u8_at k.panel_buffer 3 : Nat) : Int))) ∧
    (K.ENODEV ≠ 0 → K.ENOMEM ≠ 0 → (s6sy761_probe K k max_x max_y).1 = 0 →
      Call.input_set_abs_params K.ABS_MT_POSITION_X 0
        ((256 * u8_at k.panel_buffer 0 + u8_at k.panel_buffer 1 : Nat) : Int) 0 0 ∈
          (s6sy761_probe K k max_x max_y).2 ∧
      Call.input_set_abs_params K.ABS_MT_POSITION_Y 0
        ((256 * u8_at k.panel_buffer 2 + u8_at k.panel_buffer 3 : Nat) : Int) 0 0 ∈
          (s6sy761_probe K k max_x max_y).2) := by
  have hdec : ∀ sd : s6sy761_data, (s6sy761_hw_init K k sd max_x max_y).ret = 0 →
      (s6sy761_hw_init K k sd max_x max_y).max_x =
        256 * u8_at k.panel_buffer 0 + u8_at k.panel_buffer 1 ∧
      (s6sy761_hw_init K k sd max_x max_y).max_y =
        256 * u8_at k.panel_buffer 2 + u8_at k.panel_buffer 3 ∧
      (s6sy761_hw_init K k sd max_x max_y).sdata.devid =
        256 * u8_at k.devid_buffer 1 + u8_at k.devid_buffer 2 := by
    intro sd h
    obtain ⟨hx, hy, hd⟩ := hw_init_outputs K k sd max_x max_y h
    rw [hx, hy, hd, get_unaligned_be16_eq, get_unaligned_be16_eq, get_unaligned_be16_eq]
    exact ⟨rfl, rfl, rfl⟩
  have b0 := u8_at_lt k.panel_buffer 0
  have b1 := u8_at_lt k.panel_buffer 1
  have b2 := u8_at_lt k.panel_buffer 2
  have b3 := u8_at_lt k.panel_buffer 3
  have d1 := u8_at_lt k.devid_buffer 1
  have d2 := u8_at_lt k.devid_buffer 2
  have hmem : ∀ axis lo hi fuzz flat,
      Call.input_set_abs_params axis lo hi fuzz flat ∈ (s6sy761_probe K k max_x max_y).2 →
      Call.input_set_abs_params axis lo hi fuzz flat ∈
        [Call.input_set_abs_params K.ABS_MT_POSITION_X 0
           ((256 * u8_at k.panel_buffer 0 + u8_at k.panel_buffer 1 : Nat) : Int) 0 0,
         Call.input_set_abs_params K.ABS_MT_POSITION_Y 0
           ((256 * u8_at k.panel_buffer 2 + u8_at k.panel_buffer 3 : Nat) : Int) 0 0,
         Call.input_set_abs_params K.ABS_MT_TOUCH_MAJOR 0 255 0 0,
         Call.input_set_abs_params K.ABS_MT_TOUCH_MINOR 0 255 0 0,
         Call.input_set_abs_params K.ABS_MT_PRESSURE 0 255 0 0] ∧
      Call.input_set_abs_params K.ABS_MT_POSITION_X 0
        ((256 * u8_at k.panel_buffer 0 + u8_at k.panel_buffer 1 : Nat) : Int) 0 0 ∈
          (s6sy761_probe K k max_x max_y).2 ∧
      Call.input_set_abs_params K.ABS_MT_POSITION_Y 0
        ((256 * u8_at k.panel_buffer 2 + u8_at k.panel_buffer 3 : Nat) : Int) 0 0 ∈
          (s6sy761_probe K k max_x max_y).2 := by
    intro axis lo hi fuzz flat h
    obtain ⟨h5, hin, hX, hY⟩ := probe_abs_params_mem K k max_x max_y axis lo hi fuzz flat h
    obtain ⟨hx, hy, _⟩ := hdec ⟨0, 0⟩ h5
    rw [hx, uint_to_int_small _ (by omega)] at hin hX
    rw [hy, uint_to_int_small _ (by omega)] at hin hY
    exact ⟨hin, hX, hY⟩
  refine ⟨?_, ?_, ?_⟩
  · intro h
    obtain ⟨hx, hy, hd⟩ := hdec sdata h
    rw [hx, hy, hd]
    refine ⟨rfl, rfl, rfl, ?_, ?_, ?_⟩ <;> omega
  · intro axis lo hi fuzz flat h
    obtain ⟨hin, hX, hY⟩ := hmem axis lo hi fuzz flat h
    refine ⟨hX, hY, ?_, ?_⟩
    · intro ha hne
      subst ha
      simp only [List.mem_cons, List.mem_singleton, List.not_mem_nil, or_false, not_or] at hne
      simp only [List.mem_cons, List.mem_singleton, List.not_mem_nil, or_false,
        Call.input_set_abs_params.injEq] at hin
      rcases hin with h | h | h | h | h
      · exact ⟨h.2.1, h.2.2.1⟩
      · exact absurd h.1 hne.1
      · exact absurd h.1 hne.2.1
      · exact absurd h.1 hne.2.2.1
      · exact absurd h.1 hne.2.2.2
    · intro ha hne
      subst ha
      simp only [List.mem_cons, List.mem_singleton, List.not_mem_nil, or_false, not_or] at hne
      simp only [List.mem_cons, List.mem_singleton, List.not_mem_nil, or_false,
        Call.input_set_abs_params.injEq] at hin
      rcases hin with h | h | h | h | h
      · exact absurd h.1 hne.1
      · exact ⟨h.2.1, h.2.2.1⟩
      · exact absurd h.1 hne.2.1
      · exact absurd h.1 hne.2.2.1
      · exact absurd h.1 hne.2.2.2
  · intro hENODEV hENOMEM h0
    have hall := (probe_ret_zero_iff K k max_x max_y hENODEV hENOMEM).mp h0
    have e0 := hall Step.i2c_functionality
    have e1 := hall Step.alloc_data
    have e2 := hall Step.regulator_bulk_get
    have e3 := hall Step.add_action
    have e4 := hall Step.hw_init
    have e5 := hall Step.alloc_input
    simp only [step_ok, bne_iff_ne, ne_eq, beq_iff_eq] at e0 e1 e2 e3 e4 e5
    have hX : Call.input_set_abs_params K.ABS_MT_POSITION_X 0
        (uint_to_int (s6sy761_hw_init K k ⟨0, 0⟩ max_x max_y).max_x) 0 0 ∈
          (s6sy761_probe K k max_x max_y).2 := by
      rw [probe_late K k max_x max_y e0 e1 e2 e3 e4 e5]
      simp [probe_input_setup]
    obtain ⟨_, hX2, hY2⟩ := hmem _ _ _ _ _ hX
    exact ⟨hX2, hY2⟩

theorem hw_init_big_endian_outputs_witness :
    (s6sy761_hw_init mainline kernel_ok ⟨0, 0⟩ 0 0).max_x = 1440 ∧
    (s6sy761_hw_init mainline kernel_ok ⟨0, 0⟩ 0 0).max_y = 2560 ∧
    (s6sy761_hw_init mainline kernel_ok ⟨0, 0⟩ 0 0).sdata.devid = 0x1234 ∧
    Call.input_set_abs_params 0x35 0 1440 0 0 ∈ (s6sy761_probe mainline kernel_ok 0 0).2 ∧
    Call.input_set_abs_params 0x36 0 2560 0 0 ∈ (s6sy761_probe mainline kernel_ok 0 0).2 :=
  have h := hw_init_big_endian_outputs mainline kernel_ok ⟨0, 0⟩ 0 0
  have h1 := h.1 (by decide)
  have h3 := h.2.2 (by decide) (by decide) (by decide)
  ⟨h1.1, h1.2.1, h1.2.2.1, h3.1, h3.2⟩

end S6sy761

namespace Q6voice

theorem q6voice_path_type_eq :
    q6voice_path_type =
      [("Q6VOICE_PATH_VOICE", 0), ("Q6VOICE_PATH_VOIP", 1), ("Q6VOICE_PATH_VOLTE", 2),
       ("Q6VOICE_PATH_VOICE2", 3), ("Q6VOICE_PATH_QCHAT", 4), ("Q6VOICE_PATH_VOWLAN", 5),
       ("Q6VOICE_PATH_VOICEMMODE1", 6), ("Q6VOICE_PATH_VOICEMMODE2", 7),
       ("Q6VOICE_PATH_COUNT", 8)] := by
  simp [q6voice_path_type, q6voice_path_type_decl, enum_values]

/-- C7: the enumerators of `q6voice_path_type` are numbered consecutively from
`Q6VOICE_PATH_VOICE = 0` to `Q6VOICE_PATH_VOICEMMODE2 = 7`, their values are
pairwise distinct, `Q6VOICE_PATH_COUNT` is 8, the number of path types, so every
path type is below it; `q6voice_port_type` is `Q6VOICE_PORT_RX = 0`,
`Q6VOICE_PORT_TX = 1`. -/
theorem q6voice_enum_numbering :
    q6voice_path_type =
      [("Q6VOICE_PATH_VOICE", 0), ("Q6VOICE_PATH_VOIP", 1), ("Q6VOICE_PATH_VOLTE", 2),
       ("Q6VOICE_PATH_VOICE2", 3), ("Q6VOICE_PATH_QCHAT", 4), ("Q6VOICE_PATH_VOWLAN", 5),
       ("Q6VOICE_PATH_VOICEMMODE1", 6), ("Q6VOICE_PATH_VOICEMMODE2", 7),
       ("Q6VOICE_PATH_COUNT", 8)] ∧
    (q6voice_path_type.map Prod.snd).Nodup ∧
    enum_value q6voice_path_type "Q6VOICE_PATH_COUNT" = some 8 ∧
    (q6voice_path_type.filter (fun p => p.1 != "Q6VOICE_PATH_COUNT")).length = 8 ∧
    (∀ name value, (name, value) ∈ q6voice_path_type → name ≠ "Q6VOICE_PATH_COUNT" →
      0 ≤ value ∧ value < 8) ∧
    q6voice_port_type = [("Q6VOICE_PORT_RX", 0), ("Q6VOICE_PORT_TX", 1)] := by
  have hcount : enum_value q6voice_path_type "Q6VOICE_PATH_COUNT" = some 8 := by
    rw [q6voice_path_type_eq]; decide
  refine ⟨q6voice_path_type_eq, ?_, hcount, ?_, ?_, ?_⟩
  · rw [q6voice_path_type_eq]; decide
  · rw [q6voice_path_type_eq]; decide
  · intro name value hmem hne
    rw [q6voice_path_type_eq] at hmem
    simp only [List.mem_cons, List.mem_singleton, List.not_mem_nil, or_false,
      Prod.mk.injEq] at hmem
    rcases hmem with h | h | h | h | h | h | h | h | h
    all_goals first
      | exact absurd h.1 hne
      | (rw [h.2]; exact ⟨by decide, by decide⟩)
  · simp [q6voice_port_type, q6voice_port_type_decl, enum_values]

theorem q6voice_enum_numbering_witness :
    (0 : Int) ≤ 4 ∧ (4 : Int) < 8 :=
  q6voice_enum_numbering.2.2.2.2.1 "Q6VOICE_PATH_QCHAT" 4
    (by rw [q6voice_path_type_eq]; decide) (by decide)

end Q6voice
